import Mathlib

/-!
# Verification of the dashboard rate-limit service

Shallow embedding of `rateLimitService` (the module exporting
`loadRateLimitsConfig`, `saveConfig`, `resetProviderLimits`) over the
Supabase tables `rate_limit_configs` and `rate_limit_status`.

Conventions of the embedding:
* nullable DB columns and optional JS object fields are `Option` values;
* JS `x ?? y` is `Option.getD`, `x?.f` is `Option.bind`, and `x || y`
  on numbers / strings uses JS truthiness (`null`, `0`, `""` are falsy);
* JS numbers that the service only ever combines with integer arithmetic
  are `Int`; the two float divisions feeding `Math.round` / `toFixed`
  are computed exactly in `ℚ` (on every input exercised below the float
  and the exact result round identically);
* timestamps (ISO strings in the code) are opaque `Int` values;
* a Supabase query result is a record with `data` and `error` fields.
-/

/-- ISO timestamp strings are only ever stored and compared for identity
by this service; they are modelled as opaque integers. -/
abbrev Timestamp := Int

/-- JS truthiness of a nullable number (`null`/`undefined` and `0` are falsy). -/
def truthyInt : Option Int → Bool
  | none => false
  | some v => v != 0

/-- JS truthiness of a nullable string (`null`/`undefined` and `""` are falsy). -/
def truthyStr : Option String → Bool
  | none => false
  | some s => s != ""

/-- JS `Math.round`: round to the nearest integer, halves toward `+∞`.
(`Rat.floor` is used rather than `Int.floor` so that the definition
evaluates inside the kernel; they agree, see `jsRound_eq_floor`.) -/
def jsRound (q : ℚ) : Int := (q + 1/2).floor

/-- JS `Number.prototype.toFixed d`: print with `d` fractional digits.
ECMA-262 formats the magnitude (sign handled first) choosing the larger
candidate on ties, i.e. rounding the magnitude half away from zero. -/
def jsToFixed (q : ℚ) (d : Nat) : String :=
  let sign := (if q < 0 then ("-") else (""))
  let n : Int := (|q| * ((10 : ℚ) ^ d) + 1/2).floor
  if d = 0 then sign ++ toString n
  else
    let ip := n / ((10 : Int) ^ d)
    let fp := n % ((10 : Int) ^ d)
    let fs := toString fp
    let pad := String.mk (List.replicate (d - fs.length) ('0'))
    sign ++ toString ip ++ "." ++ pad ++ fs

/-- JS `parseInt` as applied by `saveConfig` to the integer limit
values: on an integer input it is the identity. -/
def jsParseInt (n : Int) : Int := n

/-- A row of the `rate_limit_configs` table (the load path selects all columns). -/
structure RateLimitConfigRow where
  id : Nat
  provider : String
  tier_name : Option String
  model_pattern : Option String
  token_limit : Option Int
  request_limit : Option Int
  reset_strategy : String
  window_minutes : Int
deriving DecidableEq, Repr

/-- A row of the `rate_limit_status` table (one per config, keyed by
`config_id`). -/
structure RateLimitStatusRow where
  config_id : Nat
  remaining_tokens : Option Int
  remaining_requests : Option Int
  window_start : Option Timestamp
  next_reset : Option Timestamp
  last_updated : Option Timestamp
  reset_anchor_timestamp : Option Timestamp
deriving DecidableEq, Repr

/-- `status?.remaining_* ?? limit` (lines 59 and 69): the remaining amount
used by `loadRateLimitsConfig`, defaulting to the full limit when there is
no status row or the column is null. -/
def remainingOf (limit : Int) (fromStatus : Option Int) : Int :=
  fromStatus.getD limit

/-- `Math.max(0, Math.min(remaining, limit))` (lines 61 and 71): the
remaining amount clamped to `[0, limit]` for the percentage computation. -/
def safeRemainingOf (remaining limit : Int) : Int :=
  max 0 (min remaining limit)

/-- `Math.round((safeRemaining / limit) * 100)` (lines 62 and 72). -/
def percentageOf (safe limit : Int) : Int :=
  jsRound (((safe : ℚ) / (limit : ℚ)) * 100)

/-- `Math.max(0, limit - remaining)` (lines 64 and 74). -/
def usedOf (limit remaining : Int) : Int :=
  max 0 (limit - remaining)

/-- The limit-type/percentage/label block computed per config
(`loadRateLimitsConfig`, lines 46-81). -/
structure LimitEval where
  limitVal : Int
  limitUnit : String
  percentage : Int
  usedLabel : String
deriving DecidableEq, Repr

/-- Lines 46-81 of `loadRateLimitsConfig`: prioritize the token limit if
truthy, else the request limit, else report the unlimited entry. -/
def evalConf (conf : RateLimitConfigRow) (status : Option RateLimitStatusRow) :
    LimitEval :=
  if truthyInt conf.token_limit then
    let tl := conf.token_limit.getD 0
    let remaining := remainingOf tl (status.bind RateLimitStatusRow.remaining_tokens)
    let safe := safeRemainingOf remaining tl
    { limitVal := tl
      limitUnit := "tokens"
      percentage := percentageOf safe tl
      usedLabel := jsToFixed ((usedOf tl remaining : ℚ) / 1000) 1 ++ "k / " ++
        jsToFixed ((tl : ℚ) / 1000) 0 ++ "k" }
  else if truthyInt conf.request_limit then
    let rl := conf.request_limit.getD 0
    let remaining := remainingOf rl (status.bind RateLimitStatusRow.remaining_requests)
    let safe := safeRemainingOf remaining rl
    { limitVal := rl
      limitUnit := "requests"
      percentage := percentageOf safe rl
      usedLabel := toString (usedOf rl remaining) ++ " / " ++ toString rl }
  else
    { limitVal := 0
      limitUnit := "requests"
      percentage := 100
      usedLabel := "Unlimited" }

/-- `Rat.floor` agrees with the mathematical floor. -/
theorem jsRound_eq_floor (q : ℚ) : jsRound q = ⌊q + 1/2⌋ := by
  rw [jsRound, Rat.floor_def', ← Rat.floor_def]

/-- Evaluation rule for `jsRound` at a known integer result. -/
theorem jsRound_eq_of (q : ℚ) (k : ℤ) (h1 : (k : ℚ) ≤ q + 1/2)
    (h2 : q + 1/2 < k + 1) : jsRound q = k := by
  rw [jsRound_eq_floor]
  exact Int.floor_eq_iff.mpr ⟨h1, by exact_mod_cast h2⟩

/-- JS `String.prototype.toLowerCase` (ASCII fragment, which is all the
provider names exercise). -/
def jsToLowerCase (s : String) : String :=
  String.mk (s.data.map Char.toLower)

/-- `new Map((statusResult.data || []).map(s => [s.config_id, s]))` followed
by `statusMap.get(id)`: with duplicate keys, the later entry wins. -/
def statusMapGet (rows : List RateLimitStatusRow) (id : Nat) :
    Option RateLimitStatusRow :=
  rows.foldl (fun acc s => if s.config_id = id then some s else acc) none

/-- The `backendStatus` object pushed per limit (lines 92-96). -/
structure BackendStatus where
  percentage : Int
  nextReset : Option Timestamp
  label : String
deriving DecidableEq, Repr

/-- One element of the `limits` array of a provider (lines 83-97). -/
structure LimitEntry where
  id : Nat
  name : String
  limit : Int
  unit : String
  resetType : String
  windowHours : Int
  resetTime : String
  backendStatus : BackendStatus
deriving DecidableEq, Repr

/-- A value of the `providers` object (lines 38-43). -/
structure ProviderEntry where
  name : String
  icon : String
  enabled : Bool
  limits : List LimitEntry
deriving DecidableEq, Repr

/-- The `providerIcons` lookup table (lines 28-32). -/
def providerIcons : List (String × String) :=
  [("OpenAI", "🤖"), ("Anthropic", "🟣"), ("Google", "💎")]

/-- `Math.round(conf.window_minutes / 60)` (line 89). -/
def loadedWindowHours (window_minutes : Int) : Int :=
  jsRound ((window_minutes : ℚ) / 60)

/-- The limit entry pushed for one config (lines 83-97). -/
def buildEntry (conf : RateLimitConfigRow) (status : Option RateLimitStatusRow) :
    LimitEntry :=
  let e := evalConf conf status
  { id := conf.id
    name := (if truthyStr conf.model_pattern then conf.model_pattern.getD ("")
             else ("All Models"))
    limit := e.limitVal
    unit := e.limitUnit
    resetType := conf.reset_strategy
    windowHours := loadedWindowHours conf.window_minutes
    resetTime := "00:00"
    backendStatus :=
      { percentage := e.percentage
        nextReset := status.bind RateLimitStatusRow.next_reset
        label := e.usedLabel } }

/-- The provider object created on first sight of a provider key
(lines 38-43). -/
def newProvider (conf : RateLimitConfigRow) : ProviderEntry :=
  { name := conf.provider ++
      (if truthyStr conf.tier_name then (" ") ++ conf.tier_name.getD ("") else (""))
    icon := (providerIcons.lookup conf.provider).getD ("🔌")
    enabled := true
    limits := [] }

/-- Append `entry` to the `limits` of the provider keyed `key`. -/
def pushLimit (ps : List (String × ProviderEntry)) (key : String)
    (entry : LimitEntry) : List (String × ProviderEntry) :=
  ps.map fun kv =>
    if kv.1 = key then (kv.1, { kv.2 with limits := kv.2.limits ++ [entry] })
    else kv

/-- The body of `configs.forEach` (lines 34-98): JS objects keyed by string
preserve insertion order, so `providers` is an ordered association list. -/
def stepConfig (statuses : List RateLimitStatusRow)
    (ps : List (String × ProviderEntry)) (conf : RateLimitConfigRow) :
    List (String × ProviderEntry) :=
  let key := jsToLowerCase conf.provider
  let ps' := if (ps.lookup key).isSome then ps else ps ++ [(key, newProvider conf)]
  pushLimit ps' key (buildEntry conf (statusMapGet statuses conf.id))

/-- The full `providers` structure built by `loadRateLimitsConfig`. -/
def buildProviders (configs : List RateLimitConfigRow)
    (statuses : List RateLimitStatusRow) : List (String × ProviderEntry) :=
  configs.foldl (stepConfig statuses) []

/-- A Supabase query result: `data` is null exactly on failure, `error`
is null exactly on success (the embedding keeps both fields so that the
separate tests the code makes of them are modelled verbatim). -/
structure QueryResult (α : Type) where
  data : Option (List α)
  error : Option String
deriving Repr

/-- `loadRateLimitsConfig` (lines 7-106): returns null on a config query
error; a null `configs` array would make `configs.forEach` throw, which
the surrounding catch-all also turns into null; a status query error only
degrades to an empty status list (`statusResult.data || []`). -/
def loadRateLimitsConfig (configsResult : QueryResult RateLimitConfigRow)
    (statusResult : QueryResult RateLimitStatusRow) :
    Option (List (String × ProviderEntry)) :=
  if configsResult.error.isSome then none
  else
    match configsResult.data with
    | none => none
    | some configs =>
        some (buildProviders configs (statusResult.data.getD []))

/-! ## saveConfig -/

/-- A limit as edited in the UI and passed to `saveConfig`. -/
structure UILimit where
  id : String
  name : String
  limit : Int
  unit : String
  resetType : String
  windowHours : Option Int
deriving DecidableEq, Repr

/-- JS `x || d` on a nullable number. -/
def jsOrInt (x : Option Int) (d : Int) : Int :=
  if truthyInt x then x.getD 0 else d

/-- `providerKey.charAt(0).toUpperCase() + providerKey.slice(1)` (line 133). -/
def capitalizeKey (s : String) : String :=
  match s.data with
  | [] => ""
  | c :: rest => String.mk (c.toUpper :: rest)

/-- The provider-name fixups of lines 151-156 applied after the rough
capitalization of line 133. -/
def mapProviderKey (key base : String) : String :=
  if key = "chatgpt" then ("OpenAI")
  else if key = "openai" then ("OpenAI")
  else if key = "claude" then ("Anthropic")
  else if key = "anthropic" then ("Anthropic")
  else if key = "gemini" then ("Google")
  else if key = "google" then ("Google")
  else base

/-- Line 129: the id is new when it is a string starting with the text
limit_ (UI ids are always strings here). -/
def uiIdIsNew (id : String) : Bool :=
  id.startsWith ("limit_")

/-- A row of the upsert payload assembled by `saveConfig` (an `id` of
`none` means the field is omitted so the DB generates one). -/
structure ConfigUpsertRow where
  provider : String
  tier_name : String
  model_pattern : String
  reset_strategy : String
  window_minutes : Int
  token_limit : Option Int
  request_limit : Option Int
  id : Option String
deriving DecidableEq, Repr

/-- Lines 129-164 of `saveConfig`: the row built for one UI limit. -/
def buildRow (providerKey : String) (l : UILimit) : ConfigUpsertRow :=
  { provider := mapProviderKey providerKey (capitalizeKey providerKey)
    tier_name := ""
    model_pattern := l.name
    reset_strategy := l.resetType
    window_minutes := jsOrInt l.windowHours 1 * 60
    token_limit := (if l.unit = "tokens" then some (jsParseInt l.limit) else none)
    request_limit := (if l.unit = "tokens" then none else some (jsParseInt l.limit))
    id := (if uiIdIsNew l.id then none else some l.id) }

/-! ## resetProviderLimits -/

/-- The columns of the upsert payload of `resetProviderLimits`
(lines 212-219). `reset_anchor_timestamp` is not among them. -/
structure ResetPayload where
  config_id : Nat
  remaining_tokens : Option Int
  remaining_requests : Option Int
  window_start : Option Timestamp
  next_reset : Option Timestamp
  last_updated : Option Timestamp
deriving DecidableEq, Repr

/-- The payload written for one matching config (lines 212-219). -/
def resetPayload (conf : RateLimitConfigRow) (now : Timestamp) : ResetPayload :=
  { config_id := conf.id
    remaining_tokens := conf.token_limit
    remaining_requests := conf.request_limit
    window_start := some now
    next_reset := none
    last_updated := some now }

/-- The `rate_limit_status` table, keyed by its `config_id` unique key. -/
def StatusTable := Nat → Option RateLimitStatusRow

/-- The row resulting from upserting `p` over the previous row `old`
(Postgres `INSERT .. ON CONFLICT (config_id) DO UPDATE`): columns in the
payload are written; columns absent from it keep their previous value on
conflict and take the column default (null) on a fresh insert. -/
def applyPayload (p : ResetPayload) (old : Option RateLimitStatusRow) :
    RateLimitStatusRow :=
  { config_id := p.config_id
    remaining_tokens := p.remaining_tokens
    remaining_requests := p.remaining_requests
    window_start := p.window_start
    next_reset := p.next_reset
    last_updated := p.last_updated
    reset_anchor_timestamp := old.bind RateLimitStatusRow.reset_anchor_timestamp }

/-- The status-table upsert with conflict key config_id (lines 210-219). -/
def upsertStatus (t : StatusTable) (p : ResetPayload) : StatusTable :=
  fun id => if id = p.config_id then some (applyPayload p (t id)) else t id

/-- The state touched by `resetProviderLimits`: the two tables. -/
structure DBState where
  configs : List RateLimitConfigRow
  statuses : StatusTable

/-- The ilike filter on the provider column (line 202): ilike with no
wildcard characters is case-insensitive equality. -/
def matchingConfigs (configs : List RateLimitConfigRow) (providerName : String) :
    List RateLimitConfigRow :=
  configs.filter fun c => jsToLowerCase c.provider = jsToLowerCase providerName

/-- `resetProviderLimits` (lines 196-226): select the matching configs,
return untouched if none, else upsert a full-limit status for each. -/
def resetProviderLimits (providerName : String) (now : Timestamp)
    (st : DBState) : DBState :=
  let configs := matchingConfigs st.configs providerName
  if configs.isEmpty then st
  else
    { st with
      statuses := configs.foldl (fun t c => upsertStatus t (resetPayload c now))
        st.statuses }

/-! ## Helper lemmas for the reset path -/

/-- The reset-anchor column of the row (if any) at a table slot. -/
def anchorOf (o : Option RateLimitStatusRow) : Option Timestamp :=
  o.bind RateLimitStatusRow.reset_anchor_timestamp

/-- Only the anchor of the previous row matters to `applyPayload`. -/
theorem applyPayload_congr (p : ResetPayload) (o1 o2 : Option RateLimitStatusRow)
    (h : anchorOf o1 = anchorOf o2) : applyPayload p o1 = applyPayload p o2 := by
  unfold applyPayload
  rw [show o1.bind RateLimitStatusRow.reset_anchor_timestamp =
      o2.bind RateLimitStatusRow.reset_anchor_timestamp from h]

/-- An upsert of a reset payload never changes the anchor column. -/
theorem anchorOf_upsertStatus (t : StatusTable) (p : ResetPayload) (id : Nat) :
    anchorOf (upsertStatus t p id) = anchorOf (t id) := by
  unfold upsertStatus
  by_cases h : id = p.config_id
  · simp [h, anchorOf, applyPayload]
  · simp [h]

/-- The sequence of status upserts performed by `resetProviderLimits`. -/
def resetFold (now : Timestamp) (cs : List RateLimitConfigRow)
    (t : StatusTable) : StatusTable :=
  cs.foldl (fun t c => upsertStatus t (resetPayload c now)) t

/-- `resetProviderLimits` unfolded through `resetFold`. -/
theorem resetProviderLimits_def (providerName : String) (now : Timestamp)
    (st : DBState) :
    resetProviderLimits providerName now st =
      if (matchingConfigs st.configs providerName).isEmpty then st
      else { st with
              statuses :=
                resetFold now (matchingConfigs st.configs providerName)
                  st.statuses } := rfl

/-- The fold of upserts never changes the anchor column of any slot. -/
theorem anchorOf_resetFold (now : Timestamp) :
    ∀ (cs : List RateLimitConfigRow) (t : StatusTable) (id : Nat),
      anchorOf (resetFold now cs t id) = anchorOf (t id) := by
  intro cs
  induction cs with
  | nil => intro t id; rfl
  | cons c rest ih =>
      intro t id
      have h1 : resetFold now (c :: rest) t =
          resetFold now rest (upsertStatus t (resetPayload c now)) := rfl
      rw [h1, ih, anchorOf_upsertStatus]

/-- The last config in the list whose id is `id`. -/
def lastMatch : List RateLimitConfigRow → Nat → Option RateLimitConfigRow
  | [], _ => none
  | c :: rest, id =>
    match lastMatch rest id with
    | some c2 => some c2
    | none => if c.id = id then some c else none

/-- What one slot of the table holds after the fold of upserts. -/
theorem resetFold_apply (now : Timestamp) :
    ∀ (cs : List RateLimitConfigRow) (t : StatusTable) (id : Nat),
      resetFold now cs t id =
        match lastMatch cs id with
        | some c => some (applyPayload (resetPayload c now) (t id))
        | none => t id := by
  intro cs
  induction cs with
  | nil => intro t id; rfl
  | cons c rest ih =>
      intro t id
      have h1 : resetFold now (c :: rest) t =
          resetFold now rest (upsertStatus t (resetPayload c now)) := rfl
      rw [h1, ih]
      cases hlm : lastMatch rest id with
      | some c2 =>
          simp only [lastMatch, hlm]
          exact congrArg some
            (applyPayload_congr _ _ _ (anchorOf_upsertStatus t _ id))
      | none =>
          simp only [lastMatch, hlm]
          by_cases hc : c.id = id
          · subst hc
            simp [upsertStatus, resetPayload]
          · simp only [upsertStatus, resetPayload]
            rw [if_neg (fun h => hc h.symm), if_neg hc]

/-- No config with the given id: the fold leaves the slot alone. -/
theorem lastMatch_eq_none {cs : List RateLimitConfigRow} {id : Nat}
    (h : ∀ c ∈ cs, c.id ≠ id) : lastMatch cs id = none := by
  induction cs with
  | nil => rfl
  | cons c rest ih =>
      have hrest : lastMatch rest id = none :=
        ih fun d hd => h d (List.mem_cons_of_mem _ hd)
      simp only [lastMatch, hrest]
      rw [if_neg (h c (List.mem_cons_self _ _))]

/-- With distinct config ids, the last match of a member id is that member. -/
theorem lastMatch_of_nodup {cs : List RateLimitConfigRow}
    {conf : RateLimitConfigRow}
    (hnd : (cs.map RateLimitConfigRow.id).Nodup) (hmem : conf ∈ cs) :
    lastMatch cs conf.id = some conf := by
  induction cs with
  | nil => cases hmem
  | cons c rest ih =>
      rw [List.map_cons, List.nodup_cons] at hnd
      rcases List.mem_cons.mp hmem with rfl | hmem2
      · have hnone : lastMatch rest conf.id = none := by
          apply lastMatch_eq_none
          intro d hd hdd
          exact hnd.1 (hdd ▸ List.mem_map_of_mem RateLimitConfigRow.id hd)
        simp [lastMatch, hnone]
      · simp only [lastMatch, ih hnd.2 hmem2]

/-- With a positive limit and a clamped numerator, the rounded percentage
lies between 0 and 100. -/
theorem percentageOf_mem (s l : Int) (hl : 0 < l) (h0 : 0 ≤ s) (hsl : s ≤ l) :
    0 ≤ percentageOf s l ∧ percentageOf s l ≤ 100 := by
  have hlq : (0 : ℚ) < (l : ℚ) := by exact_mod_cast hl
  have hq0 : (0 : ℚ) ≤ ((s : ℚ) / (l : ℚ)) * 100 := by
    have hs : (0 : ℚ) ≤ (s : ℚ) := by exact_mod_cast h0
    have := div_nonneg hs hlq.le
    linarith
  have hq1 : ((s : ℚ) / (l : ℚ)) * 100 ≤ 100 := by
    have hdiv : (s : ℚ) / (l : ℚ) ≤ 1 :=
      (div_le_one hlq).mpr (by exact_mod_cast hsl)
    nlinarith
  constructor
  · rw [percentageOf, jsRound_eq_floor]
    apply Int.le_floor.mpr
    push_cast
    linarith
  · rw [percentageOf, jsRound_eq_floor]
    have h2 : ⌊((s : ℚ) / (l : ℚ)) * 100 + 1/2⌋ < 101 := by
      apply Int.floor_lt.mpr
      push_cast
      linarith
    omega

/-- The clamped value is always within the window `[0, limit]`. -/
theorem safeRemainingOf_mem (remaining limit : Int) (hl : 0 ≤ limit) :
    0 ≤ safeRemainingOf remaining limit ∧ safeRemainingOf remaining limit ≤ limit := by
  unfold safeRemainingOf
  omega

/-! ## Claims about resetProviderLimits -/

/-- Claim C1: for every RateLimitConfig whose provider matches the given
providerName, resetProviderLimits writes a RateLimitStatus with
remaining_tokens equal to the token_limit of the config, remaining_requests
equal to its request_limit, window_start equal to now, and next_reset null.
(Distinct config ids reflect that id is the primary key of the table.) -/
theorem resetProvider_full_reset (st : DBState) (providerName : String)
    (now : Timestamp) (conf : RateLimitConfigRow)
    (hnd : (st.configs.map RateLimitConfigRow.id).Nodup)
    (hmem : conf ∈ matchingConfigs st.configs providerName) :
    ∃ row, (resetProviderLimits providerName now st).statuses conf.id = some row ∧
      row.remaining_tokens = conf.token_limit ∧
      row.remaining_requests = conf.request_limit ∧
      row.window_start = some now ∧
      row.next_reset = none := by
  have hsub : List.Sublist
      ((matchingConfigs st.configs providerName).map RateLimitConfigRow.id)
      (st.configs.map RateLimitConfigRow.id) := by
    unfold matchingConfigs
    exact (List.filter_sublist _).map _
  have hnd2 : ((matchingConfigs st.configs providerName).map
      RateLimitConfigRow.id).Nodup := List.Nodup.sublist hsub hnd
  have hne : (matchingConfigs st.configs providerName).isEmpty = false := by
    cases hM : matchingConfigs st.configs providerName with
    | nil => rw [hM] at hmem; cases hmem
    | cons a l => rfl
  rw [resetProviderLimits_def, if_neg (by simp [hne])]
  refine ⟨applyPayload (resetPayload conf now) (st.statuses conf.id),
    ?_, rfl, rfl, rfl, rfl⟩
  show resetFold now (matchingConfigs st.configs providerName)
    st.statuses conf.id = _
  rw [resetFold_apply, lastMatch_of_nodup hnd2 hmem]

/-- A one-config database used to witness the reset claims. -/
def confW1 : RateLimitConfigRow :=
  { id := 7, provider := "Anthropic", tier_name := none, model_pattern := none,
    token_limit := some 5000, request_limit := none,
    reset_strategy := "rolling", window_minutes := 300 }

/-- The witness database: one config, no status rows yet. -/
def stW1 : DBState := { configs := [confW1], statuses := fun _ => none }

/-- Witness for C1 at a concrete database and provider name. -/
theorem resetProvider_full_reset_witness :
    ((stW1.configs.map RateLimitConfigRow.id).Nodup ∧
      confW1 ∈ matchingConfigs stW1.configs ("anthropic")) ∧
    ∃ row, (resetProviderLimits ("anthropic") 42 stW1).statuses confW1.id = some row ∧
      row.remaining_tokens = confW1.token_limit ∧
      row.remaining_requests = confW1.request_limit ∧
      row.window_start = some (42 : Timestamp) ∧
      row.next_reset = none :=
  ⟨⟨by decide, by decide⟩,
    resetProvider_full_reset stW1 ("anthropic") 42 confW1 (by decide) (by decide)⟩

/-- Applying the fold of reset upserts twice is the same as applying it
once: the written columns depend only on the config row being reset, and
the one untouched column (the anchor) is preserved by every pass. -/
theorem resetFold_idem (now : Timestamp) (cs : List RateLimitConfigRow)
    (t : StatusTable) : resetFold now cs (resetFold now cs t) = resetFold now cs t := by
  funext id
  simp only [resetFold_apply]
  cases hlm : lastMatch cs id with
  | none => rfl
  | some c =>
      exact congrArg some (applyPayload_congr _ _ _ rfl)

/-- Claim C3: resetProviderLimits is idempotent; for a fixed now and a
fixed database, running it twice in succession produces exactly the state
produced by running it once. -/
theorem resetProvider_idempotent (providerName : String) (now : Timestamp)
    (st : DBState) :
    resetProviderLimits providerName now (resetProviderLimits providerName now st) =
      resetProviderLimits providerName now st := by
  by_cases he : (matchingConfigs st.configs providerName).isEmpty
  · have h1 : resetProviderLimits providerName now st = st := by
      rw [resetProviderLimits_def, if_pos he]
    rw [h1]
    exact h1
  · have h1 : resetProviderLimits providerName now st =
        { st with
            statuses := resetFold now (matchingConfigs st.configs providerName)
              st.statuses } := by
      rw [resetProviderLimits_def, if_neg he]
    rw [h1, resetProviderLimits_def]
    rw [if_neg he]
    congr 1
    exact resetFold_idem now _ _

/-- The config of the concrete database exhibiting the missing anchor
write. -/
def confA : RateLimitConfigRow :=
  { id := 3, provider := "OpenAI", tier_name := none, model_pattern := none,
    token_limit := none, request_limit := some 1000,
    reset_strategy := "daily", window_minutes := 1440 }

/-- A pre-existing status row for `confA` carrying an old anchor value. -/
def rowA : RateLimitStatusRow :=
  { config_id := 3, remaining_tokens := none, remaining_requests := some 250,
    window_start := some 10, next_reset := some 20, last_updated := some 10,
    reset_anchor_timestamp := some 111 }

/-- The concrete database for the anchor claim. -/
def stA : DBState :=
  { configs := [confA], statuses := fun id => if id = 3 then some rowA else none }

/-- Claim C4 evaluated on a concrete database: the upsert payload of
resetProviderLimits does not contain reset_anchor_timestamp, so the
written record keeps the stale anchor (111) instead of now (999), contrary
to the claim that the field is set to now. -/
theorem resetProvider_keeps_stale_anchor :
    (resetProviderLimits ("openai") 999 stA).statuses 3 =
      some { config_id := 3, remaining_tokens := none,
             remaining_requests := some 1000, window_start := some 999,
             next_reset := none, last_updated := some 999,
             reset_anchor_timestamp := some 111 } ∧
    ((111 : Timestamp) ≠ 999) := by decide

/-! ## Claims about loadRateLimitsConfig and saveConfig -/

/-- Claim C2: for a config with a positive limit (token or request), the
remaining value feeding the percentage is clamped to the window given by
the limit, and the rounded percentage of evalConf lies in the closed
interval from 0 to 100, whatever the stored remaining value is. -/
theorem loadRateLimits_percentage_clamped (conf : RateLimitConfigRow)
    (status : Option RateLimitStatusRow)
    (h : (∃ tl, conf.token_limit = some tl ∧ 0 < tl) ∨
         (truthyInt conf.token_limit = false ∧
          ∃ rl, conf.request_limit = some rl ∧ 0 < rl)) :
    (∀ remaining limit : Int, 0 < limit →
        0 ≤ safeRemainingOf remaining limit ∧
        safeRemainingOf remaining limit ≤ limit) ∧
    0 ≤ (evalConf conf status).percentage ∧
    (evalConf conf status).percentage ≤ 100 := by
  refine ⟨fun r l hl => safeRemainingOf_mem r l hl.le, ?_⟩
  rcases h with ⟨tl, htl, hpos⟩ | ⟨hft, rl, hrl, hpos⟩
  · have htr : truthyInt (some tl) = true := by
      show (tl != 0) = true
      exact bne_iff_ne.mpr hpos.ne'
    simp only [evalConf, htl, htr, if_true, Option.getD_some]
    have hs := safeRemainingOf_mem
      (remainingOf tl (status.bind RateLimitStatusRow.remaining_tokens)) tl hpos.le
    exact percentageOf_mem _ tl hpos hs.1 hs.2
  · have htr2 : truthyInt (some rl) = true := by
      show (rl != 0) = true
      exact bne_iff_ne.mpr hpos.ne'
    simp only [evalConf, hft, Bool.false_eq_true, if_false, hrl, htr2, if_true,
      Option.getD_some]
    have hs := safeRemainingOf_mem
      (remainingOf rl (status.bind RateLimitStatusRow.remaining_requests)) rl hpos.le
    exact percentageOf_mem _ rl hpos hs.1 hs.2

/-- The config used to witness the clamping claim: limit 1000 tokens. -/
def confW2 : RateLimitConfigRow :=
  { id := 1, provider := "OpenAI", tier_name := none, model_pattern := none,
    token_limit := some 1000, request_limit := none,
    reset_strategy := "daily", window_minutes := 1440 }

/-- A status row with an out-of-range remaining value (below zero). -/
def rowW2 : RateLimitStatusRow :=
  { config_id := 1, remaining_tokens := some (-500), remaining_requests := none,
    window_start := none, next_reset := none, last_updated := none,
    reset_anchor_timestamp := none }

/-- Witness for C2 at a concrete config and an out-of-range status. -/
theorem loadRateLimits_percentage_clamped_witness :
    ((∃ tl, confW2.token_limit = some tl ∧ 0 < tl) ∨
      (truthyInt confW2.token_limit = false ∧
        ∃ rl, confW2.request_limit = some rl ∧ 0 < rl)) ∧
    ((∀ remaining limit : Int, 0 < limit →
        0 ≤ safeRemainingOf remaining limit ∧
        safeRemainingOf remaining limit ≤ limit) ∧
      0 ≤ (evalConf confW2 (some rowW2)).percentage ∧
      (evalConf confW2 (some rowW2)).percentage ≤ 100) :=
  ⟨Or.inl ⟨1000, rfl, by decide⟩,
    loadRateLimits_percentage_clamped confW2 (some rowW2)
      (Or.inl ⟨1000, rfl, by decide⟩)⟩

/-- Claim C5: a config with neither limit truthy (both null or zero) is
reported as unlimited, percentage exactly 100, whatever status row (or
none) is present. -/
theorem unlimited_reports_100 (conf : RateLimitConfigRow)
    (status : Option RateLimitStatusRow)
    (ht : truthyInt conf.token_limit = false)
    (hr : truthyInt conf.request_limit = false) :
    (evalConf conf status).percentage = 100 ∧
    (evalConf conf status).usedLabel = "Unlimited" ∧
    (evalConf conf status).limitVal = 0 := by
  simp [evalConf, ht, hr]

/-- A config with a null token limit and a zero request limit. -/
def confW5 : RateLimitConfigRow :=
  { id := 2, provider := "Google", tier_name := none, model_pattern := none,
    token_limit := none, request_limit := some 0,
    reset_strategy := "daily", window_minutes := 60 }

/-- A status row that C5 must ignore. -/
def rowW5 : RateLimitStatusRow :=
  { config_id := 2, remaining_tokens := some 5, remaining_requests := some 7,
    window_start := some 1, next_reset := some 2, last_updated := some 1,
    reset_anchor_timestamp := none }

/-- Witness for C5 at a concrete config (zero request limit counts as
absent) and a present status record. -/
theorem unlimited_reports_100_witness :
    (truthyInt confW5.token_limit = false ∧
      truthyInt confW5.request_limit = false) ∧
    ((evalConf confW5 (some rowW5)).percentage = 100 ∧
      (evalConf confW5 (some rowW5)).usedLabel = "Unlimited" ∧
      (evalConf confW5 (some rowW5)).limitVal = 0) :=
  ⟨⟨by decide, by decide⟩,
    unlimited_reports_100 confW5 (some rowW5) (by decide) (by decide)⟩

/-- Claim C6: every row assembled by saveConfig carries exactly one of
token_limit and request_limit: the token one iff the unit of the UI limit
is tokens, the request one otherwise. -/
theorem saveConfig_limits_exclusive (providerKey : String) (l : UILimit) :
    (buildRow providerKey l).token_limit =
      (if l.unit = "tokens" then some (jsParseInt l.limit) else none) ∧
    (buildRow providerKey l).request_limit =
      (if l.unit = "tokens" then none else some (jsParseInt l.limit)) ∧
    ((buildRow providerKey l).token_limit).isSome =
      !((buildRow providerKey l).request_limit).isSome := by
  refine ⟨rfl, rfl, ?_⟩
  by_cases h : l.unit = "tokens" <;> simp [buildRow, h]

/-- Claim C7: a failed config query (error set, or a null data array,
which would throw inside the try block) makes loadRateLimitsConfig
return null with no partial provider structure. -/
theorem loadRateLimits_error_returns_null
    (configsResult : QueryResult RateLimitConfigRow)
    (statusResult : QueryResult RateLimitStatusRow)
    (h : configsResult.error.isSome = true ∨ configsResult.data = none) :
    loadRateLimitsConfig configsResult statusResult = none := by
  unfold loadRateLimitsConfig
  rcases h with h | h
  · rw [if_pos h]
  · by_cases he : configsResult.error.isSome = true
    · rw [if_pos he]
    · rw [if_neg he, h]

/-- A failed config query result. -/
def cqErr : QueryResult RateLimitConfigRow :=
  { data := none, error := some ("boom") }

/-- A successful, empty status query result. -/
def sqOk : QueryResult RateLimitStatusRow :=
  { data := some [], error := none }

/-- Witness for C7 at a concrete failed query. -/
theorem loadRateLimits_error_returns_null_witness :
    (cqErr.error.isSome = true ∨ cqErr.data = none) ∧
    loadRateLimitsConfig cqErr sqOk = none :=
  ⟨Or.inl rfl, loadRateLimits_error_returns_null cqErr sqOk (Or.inl rfl)⟩

/-- The config of the spec scenario D: a request limit of 1000. -/
def conf8 : RateLimitConfigRow :=
  { id := 11, provider := "OpenAI", tier_name := none, model_pattern := none,
    token_limit := none, request_limit := some 1000,
    reset_strategy := "daily", window_minutes := 1440 }

/-- The status of scenario D: 400 requests remaining. -/
def status8 : RateLimitStatusRow :=
  { config_id := 11, remaining_tokens := none, remaining_requests := some 400,
    window_start := none, next_reset := none, last_updated := none,
    reset_anchor_timestamp := none }

/-- Claim C8: with request_limit 1000 and remaining_requests 400 the
service reports percentage 40 and the label 600 / 1000. -/
theorem loadRateLimits_scenario_D :
    (evalConf conf8 (some status8)).percentage = 40 ∧
    (evalConf conf8 (some status8)).usedLabel = "600 / 1000" := by
  constructor
  · have h : (evalConf conf8 (some status8)).percentage = percentageOf 400 1000 := rfl
    rw [h, percentageOf]
    exact jsRound_eq_of _ 40 (by norm_num) (by norm_num)
  · decide

/-- A config carrying a negative (hence truthy) token limit. -/
def confNeg : RateLimitConfigRow :=
  { id := 4, provider := "OpenAI", tier_name := none, model_pattern := none,
    token_limit := some (-1), request_limit := none,
    reset_strategy := "daily", window_minutes := 60 }

/-- Claim C9 as stated fails on a config with a negative token limit and
no status row: the remaining value does default to the full limit, but
the clamp floors it at 0, so the reported percentage is 0, not 100. -/
theorem default_status_full_counterexample :
    truthyInt confNeg.token_limit = true ∧
    (evalConf confNeg none).percentage = 0 := by
  refine ⟨by decide, ?_⟩
  have h : (evalConf confNeg none).percentage = percentageOf 0 (-1) := rfl
  rw [h, percentageOf]
  exact jsRound_eq_of _ 0 (by norm_num) (by norm_num)

/-- Claim C9 (amended to positive limits): for a config with a positive
token or request limit and no status row, the remaining value defaults to
the full configured limit, the percentage is 100 and the used amount 0. -/
theorem default_status_reports_full (conf : RateLimitConfigRow)
    (h : (∃ tl, conf.token_limit = some tl ∧ 0 < tl) ∨
         (truthyInt conf.token_limit = false ∧
          ∃ rl, conf.request_limit = some rl ∧ 0 < rl)) :
    (evalConf conf none).percentage = 100 ∧
    (∀ limit : Int, remainingOf limit none = limit ∧
      usedOf limit (remainingOf limit none) = 0) := by
  have hused : ∀ limit : Int, remainingOf limit none = limit ∧
      usedOf limit (remainingOf limit none) = 0 := by
    intro l
    refine ⟨rfl, ?_⟩
    unfold usedOf remainingOf
    simp
  refine ⟨?_, hused⟩
  rcases h with ⟨tl, htl, hpos⟩ | ⟨hft, rl, hrl, hpos⟩
  · have htr : truthyInt (some tl) = true := by
      show (tl != 0) = true
      exact bne_iff_ne.mpr hpos.ne'
    simp only [evalConf, htl, htr, if_true, Option.getD_some, Option.none_bind]
    have hsafe : safeRemainingOf (remainingOf tl none) tl = tl := by
      unfold safeRemainingOf remainingOf
      simp
      omega
    rw [hsafe, percentageOf]
    have htlq : ((tl : ℚ)) ≠ 0 := by
      exact_mod_cast hpos.ne'
    rw [div_self htlq, one_mul]
    exact jsRound_eq_of _ 100 (by norm_num) (by norm_num)
  · have htr2 : truthyInt (some rl) = true := by
      show (rl != 0) = true
      exact bne_iff_ne.mpr hpos.ne'
    simp only [evalConf, hft, Bool.false_eq_true, if_false, hrl, htr2, if_true,
      Option.getD_some, Option.none_bind]
    have hsafe : safeRemainingOf (remainingOf rl none) rl = rl := by
      unfold safeRemainingOf remainingOf
      simp
      omega
    rw [hsafe, percentageOf]
    have hrlq : ((rl : ℚ)) ≠ 0 := by
      exact_mod_cast hpos.ne'
    rw [div_self hrlq, one_mul]
    exact jsRound_eq_of _ 100 (by norm_num) (by norm_num)

/-- A config with a positive request limit for the C9 witness. -/
def confW9 : RateLimitConfigRow :=
  { id := 5, provider := "Google", tier_name := none,
    model_pattern := some ("gemini"), token_limit := none,
    request_limit := some 250, reset_strategy := "weekly",
    window_minutes := 10080 }

/-- Witness for the amended C9 at a concrete config with no status row. -/
theorem default_status_reports_full_witness :
    ((∃ tl, confW9.token_limit = some tl ∧ 0 < tl) ∨
      (truthyInt confW9.token_limit = false ∧
        ∃ rl, confW9.request_limit = some rl ∧ 0 < rl)) ∧
    ((evalConf confW9 none).percentage = 100 ∧
      (∀ limit : Int, remainingOf limit none = limit ∧
        usedOf limit (remainingOf limit none) = 0)) :=
  ⟨Or.inr ⟨rfl, 250, rfl, by decide⟩,
    default_status_reports_full confW9 (Or.inr ⟨rfl, 250, rfl, by decide⟩)⟩

/-- Claim C10: the window length survives the save/load round trip; a
positive windowHours h is stored as h times 60 minutes and read back as h. -/
theorem windowHours_roundtrip (providerKey : String) (l : UILimit) (h : Int)
    (hw : l.windowHours = some h) (hpos : 0 < h) :
    (buildRow providerKey l).window_minutes = h * 60 ∧
    loadedWindowHours (buildRow providerKey l).window_minutes = h := by
  have hne : (h != 0) = true := bne_iff_ne.mpr hpos.ne'
  have hjs : jsOrInt l.windowHours 1 = h := by
    rw [jsOrInt, hw]
    simp only [truthyInt, hne, if_true, Option.getD_some]
  have hwm : (buildRow providerKey l).window_minutes = h * 60 := by
    show jsOrInt l.windowHours 1 * 60 = h * 60
    rw [hjs]
  refine ⟨hwm, ?_⟩
  rw [hwm, loadedWindowHours]
  have hq : ((h * 60 : ℤ) : ℚ) / 60 = (h : ℚ) := by
    push_cast
    field_simp
  rw [hq, jsRound_eq_floor]
  have h12 : ⌊(1/2 : ℚ)⌋ = 0 := by
    rw [Int.floor_eq_zero_iff]
    constructor <;> norm_num
  rw [Int.floor_int_add, h12, add_zero]

/-- A UI limit with a five-hour window for the C10 witness. -/
def limW10 : UILimit :=
  { id := "limit_1", name := "All Models", limit := 1000,
    unit := "requests", resetType := "daily", windowHours := some 5 }

/-- Witness for C10 at a concrete UI limit. -/
theorem windowHours_roundtrip_witness :
    (limW10.windowHours = some 5 ∧ (0 : Int) < 5) ∧
    ((buildRow ("openai") limW10).window_minutes = 5 * 60 ∧
      loadedWindowHours (buildRow ("openai") limW10).window_minutes = 5) :=
  ⟨⟨rfl, by decide⟩,
    windowHours_roundtrip ("openai") limW10 5 rfl (by decide)⟩
